import Mathlib

/-
Verification of the agent360 workflow/state/integration core against its
natural-language specification.  The Python sources are shallowly embedded:
dictionaries keyed by strings become association lists, JSON payloads are
represented by their (string) serialized form, datetimes become natural
numbers, and the outcome of each external side effect (database write,
cache write, event emission, underlying integration operation) is supplied
as an explicit oracle argument.
-/

deriving instance DecidableEq for Except

namespace Agent360

/-- Python exceptions that the embedded code can raise, tagged by their
Python class and carrying the message string. -/
inductive PyErr where
  | valueError (msg : String)
  | typeError (msg : String)
  | timeoutError (msg : String)
  | opError (msg : String)
  deriving DecidableEq, Repr

/-- Python str() of an exception: the message it was constructed with. -/
def pyStr : PyErr → String
  | .valueError m => m
  | .typeError m => m
  | .timeoutError m => m
  | .opError m => m

/-- Retry policy dictionary from src/integrations/integration_manager.py.
The code validates that the keys max_retries and delay_seconds are present
and reads max_delay_seconds and backoff_factor with dict.get defaults. -/
structure RetryPolicy where
  max_retries : Nat
  delay_seconds : ℚ
  max_delay_seconds : Option ℚ := none
  backoff_factor : Option ℚ := none
  deriving DecidableEq, Repr

/-- IntegrationConfig dataclass (integration_manager.py, lines 34-42).
The opaque config dictionary is represented by its serialized form. -/
structure IntegrationConfig where
  integration_type : String
  config : String
  enabled : Bool := true
  retry_policy : Option RetryPolicy := none
  timeout_seconds : Int := 30
  cache_ttl_seconds : Int := 3600
  deriving DecidableEq, Repr

/-- Observable state of one IntegrationManager: the in-memory integration
index (a Python dict), the Redis result cache (key to cached JSON string),
and the log of statements executed against durable storage. -/
structure ManagerState where
  integrations : List (String × IntegrationConfig)
  cache : List (String × String)
  db : List String
  deriving DecidableEq, Repr

/-- Default retry policy used by the operation executor when the
integration has none (integration_manager.py, lines 385-388). -/
def defaultRetryPolicy : RetryPolicy :=
  { max_retries := 3, delay_seconds := 1 }

/-- Retry loop of IntegrationManager._execute_operation (lines 396-406).
The argument a is the 0-based index of the invocation about to run (the
Python attempt counter equals a after the a-th invocation has failed);
retriesLeft is how many further invocations the budget still allows.
Returns the final outcome, the number of invocations made, and the list
of backoff delays waited between invocations. -/
def execOpGo (op : Nat → Except PyErr String) (delay maxDelay backoff : ℚ) :
    (a : Nat) → (retriesLeft : Nat) → Except PyErr String × Nat × List ℚ
  | a, 0 =>
    match op a with
    | .ok v => (.ok v, 1, [])
    | .error e => (.error e, 1, [])
  | a, n + 1 =>
    match op a with
    | .ok v => (.ok v, 1, [])
    | .error _ =>
      let d := min (delay * backoff ^ a) maxDelay
      let rest := execOpGo op delay maxDelay backoff (a + 1) n
      (rest.1, rest.2.1 + 1, d :: rest.2.2)

/-- IntegrationManager._execute_operation (lines 369-406): read the retry
policy (falling back to the default), then run the retry loop starting at
invocation 0 with max_retries retries in budget. -/
def IntegrationManager.execute_operation (integration : IntegrationConfig)
    (op : Nat → Except PyErr String) : Except PyErr String × Nat × List ℚ :=
  let rp := integration.retry_policy.getD defaultRetryPolicy
  let maxDelay := (rp.max_delay_seconds).getD 5
  let backoff := (rp.backoff_factor).getD 2
  execOpGo op rp.delay_seconds maxDelay backoff 0 rp.max_retries

/-- Redis result-cache key built in execute_integration (line 346):
f-string over integration type, operation and str(params). -/
def cacheKey (t oper params : String) : String :=
  "integration:" ++ t ++ ":" ++ oper ++ ":" ++ params

/-- Redis SET on the association-list cache: the new binding shadows and
replaces any previous binding of the same key. -/
def cacheSet (c : List (String × String)) (k v : String) :
    List (String × String) :=
  (k, v) :: c.filter (fun p => p.1 != k)

/-- Redis glob semantics of a pattern of the form pre*: a key matches iff
its character sequence starts with the characters of pre. -/
def globStar (pre key : String) : Bool :=
  pre.data.isPrefixOf key.data

/-- IntegrationManager._clear_integration_cache (lines 104-113): list all
redis keys matching the glob pattern integration:{type}:* and delete each
of them. -/
def IntegrationManager.clear_integration_cache
    (c : List (String × String)) (t : String) : List (String × String) :=
  c.filter (fun p => !(globStar ("integration:" ++ t ++ ":") p.1))

/-- IntegrationManager.execute_integration (lines 318-367).  The oracle op
gives the outcome of the k-th invocation of the underlying operation; the
flag timedOut tells whether the wall clock budget of asyncio.wait_for
expired before _execute_operation completed.  JSON serialization of the
cached result is the identity on its string form. -/
def IntegrationManager.execute_integration (st : ManagerState)
    (t oper params : String) (op : Nat → Except PyErr String)
    (timedOut : Bool) : Except PyErr String × ManagerState :=
  match st.integrations.lookup t with
  | none => (.error (.valueError ("Integration " ++ t ++ " not found")), st)
  | some integ =>
    if !integ.enabled then
      (.error (.valueError ("Integration " ++ t ++ " is disabled")), st)
    else
      match st.cache.lookup (cacheKey t oper params) with
      | some cached => (.ok cached, st)
      | none =>
        if timedOut then
          (.error (.timeoutError ("Operation timed out after " ++
            toString integ.timeout_seconds ++ " seconds")), st)
        else
          match IntegrationManager.execute_operation integ op with
          | (.error e, _, _) => (.error e, st)
          | (.ok v, _, _) =>
            (.ok v,
             { st with cache := cacheSet st.cache (cacheKey t oper params) v })

/-- Python truthiness-based fallback x or d for an optional integer, as in
timeout_seconds or integration.timeout_seconds (lines 250-253): None and 0
are both falsy. -/
def pyOrInt (x : Option Int) (d : Int) : Int :=
  match x with
  | some v => if v = 0 then d else v
  | none => d

/-- IntegrationManager._validate_timeouts (lines 89-102). -/
def IntegrationManager.validate_timeouts (timeout cache_ttl : Int) :
    Except PyErr Unit :=
  if timeout ≤ 0 then .error (.valueError "Timeout must be positive")
  else if cache_ttl ≤ 0 then .error (.valueError "Cache TTL must be positive")
  else .ok ()

/-- Replacement of the binding of key t in the in-memory integration index
(a Python dict assignment). -/
def idxSet (l : List (String × IntegrationConfig)) (t : String)
    (cfg : IntegrationConfig) : List (String × IntegrationConfig) :=
  (t, cfg) :: l.filter (fun p => p.1 != t)

/-- IntegrationManager.update_integration (lines 218-297).  Config and
retry-policy well-formedness checks of _validate_config and
_validate_retry_policy hold by construction in this embedding (the types
only contain well-formed values); the timeout validation and the early
return on an empty update list are modelled faithfully. -/
def IntegrationManager.update_integration (st : ManagerState) (t : String)
    (config : Option String) (enabled : Option Bool)
    (retry_policy : Option RetryPolicy) (timeout_seconds : Option Int)
    (cache_ttl_seconds : Option Int) : Except PyErr Unit × ManagerState :=
  match st.integrations.lookup t with
  | none => (.error (.valueError ("Integration " ++ t ++ " not found")), st)
  | some integ =>
    let tv : Except PyErr Unit :=
      if timeout_seconds.isSome || cache_ttl_seconds.isSome then
        IntegrationManager.validate_timeouts
          (pyOrInt timeout_seconds integ.timeout_seconds)
          (pyOrInt cache_ttl_seconds integ.cache_ttl_seconds)
      else .ok ()
    match tv with
    | .error e => (.error e, st)
    | .ok _ =>
      if config.isNone && enabled.isNone && retry_policy.isNone &&
         timeout_seconds.isNone && cache_ttl_seconds.isNone then
        (.ok (), st)
      else
        let newInteg : IntegrationConfig :=
          { integration_type := t
            config := config.getD integ.config
            enabled := enabled.getD integ.enabled
            retry_policy :=
              match retry_policy with
              | some rp => some rp
              | none => integ.retry_policy
            timeout_seconds := timeout_seconds.getD integ.timeout_seconds
            cache_ttl_seconds :=
              cache_ttl_seconds.getD integ.cache_ttl_seconds }
        (.ok (),
         { integrations := idxSet st.integrations t newInteg
           cache := IntegrationManager.clear_integration_cache st.cache t
           db := st.db ++ ["UPDATE integrations WHERE integration_type = " ++ t] })

/-- IntegrationManager.delete_integration (lines 299-316): durable delete,
removal from the in-memory index, then cache invalidation. -/
def IntegrationManager.delete_integration (st : ManagerState) (t : String) :
    Except PyErr Unit × ManagerState :=
  match st.integrations.lookup t with
  | none => (.error (.valueError ("Integration " ++ t ++ " not found")), st)
  | some _ =>
    (.ok (),
     { integrations := st.integrations.filter (fun p => p.1 != t)
       cache := IntegrationManager.clear_integration_cache st.cache t
       db := st.db ++ ["DELETE FROM integrations WHERE integration_type = " ++ t] })

/-- AgentState dataclass (src/agent_runtime/context.py, lines 30-42).
UUIDs are represented by their string form and datetimes by naturals; the
source field named variables is rendered here as vars because that
identifier is reserved in Lean. -/
structure AgentState where
  id : String
  conversation_id : Option String := none
  tenant_id : Option String := none
  current_step : String := "initialized"
  memory : List (String × String) := []
  vars : List (String × String) := []
  tool_results : List String := []
  error : Option String := none
  created_at : Nat := 0
  updated_at : Nat := 0
  deriving DecidableEq, Repr

/-- AgentContext dataclass (context.py, lines 59-66). -/
structure AgentContext where
  state : AgentState
  model_config : String := ""
  tool_config : String := ""
  workflow_config : String := ""
  tenant_config : Option String := none
  deriving DecidableEq, Repr

/-- Event emitted by StateManager.update_state (context.py, lines 200-208)
on the agent.state.changed topic. -/
structure StateChangedEvent where
  state_id : String
  current_step : String
  timestamp : Nat
  deriving DecidableEq, Repr

/-- Observable state of the StateManager infrastructure: durable rows
keyed by state id, the Redis cache keyed by agent:state:{id}, and the
stream of emitted change events. -/
structure StoreState where
  db : List (String × AgentState)
  cache : List (String × AgentState)
  events : List StateChangedEvent
  deriving DecidableEq, Repr

/-- Upsert of a durable row or cache entry keyed by a string. -/
def rowSet (l : List (String × AgentState)) (k : String) (s : AgentState) :
    List (String × AgentState) :=
  (k, s) :: l.filter (fun p => p.1 != k)

/-- Success or failure of each infrastructure side effect during one
StateManager.update_state call, supplied as an oracle. -/
structure InfraOutcome where
  dbWrite : Except PyErr Unit
  cacheWrite : Except PyErr Unit
  emitResult : Except PyErr Unit
  deriving DecidableEq, Repr

/-- StateManager.update_state (context.py, lines 144-220): stamp
updated_at, insert into agent_states, write the cache entry, optionally
emit agent.state.changed.  The try block covering the whole body re-raises
every exception, so a failure at any stage propagates to the caller with
the effects already performed left in place. -/
def StateManager.update_state (store : StoreState) (state : AgentState)
    (emit_event : Bool) (now : Nat) (o : InfraOutcome) :
    Except PyErr Unit × StoreState :=
  let s := { state with updated_at := now }
  match o.dbWrite with
  | .error e => (.error e, store)
  | .ok _ =>
    let store1 := { store with db := rowSet store.db s.id s }
    match o.cacheWrite with
    | .error e => (.error e, store1)
    | .ok _ =>
      let store2 :=
        { store1 with cache := rowSet store1.cache ("agent:state:" ++ s.id) s }
      if emit_event then
        match o.emitResult with
        | .error e => (.error e, store2)
        | .ok _ =>
          (.ok (),
           { store2 with
             events := store2.events ++
               [{ state_id := s.id, current_step := s.current_step,
                  timestamp := s.updated_at }] })
      else (.ok (), store2)

/-- Stored workflow event record (src/infrastructure/event_store.py). -/
structure EventRecord where
  id : String
  workflow_id : String
  type : String
  data : String
  metadata : Option String
  created_at : Nat
  deriving DecidableEq, Repr

/-- Python uuid.UUID() called with no arguments, as on line 80 of
event_store.py: the UUID constructor requires one of hex, bytes, bytes_le,
fields or int, so the bare call raises TypeError. -/
def uuidNoArgs : Except PyErr String :=
  .error (.typeError
    "one of the hex, bytes, bytes_le, fields, or int arguments must be given")

/-- EventStore.store_event (event_store.py, lines 56-117): generate an
event id with str(UUID()), build the record, insert it into the
workflow_events table, and return the id; any exception is logged and
re-raised.  Because the id generation raises, the insert is unreachable. -/
def EventStore.store_event (store : List EventRecord)
    (workflow_id event_type event_data : String) (metadata : Option String)
    (now : Nat) : Except PyErr String × List EventRecord :=
  match uuidNoArgs with
  | .error e => (.error e, store)
  | .ok event_id =>
    (.ok event_id,
     store ++ [{ id := event_id, workflow_id := workflow_id,
                 type := event_type, data := event_data,
                 metadata := metadata, created_at := now }])

/-- Result dictionary of the reasoning activity: the workflow reads its
tool_selection key (agent_workflow.py, line 74). -/
structure ReasoningResult where
  tool_selection : String
  deriving DecidableEq, Repr

/-- Outcomes of the four activity invocations made by AgentWorkflow.run,
each already folded over its own activity-level retry budget: the value an
activity finally produced, or the exception visible to the workflow after
its retries were exhausted. -/
structure Activities where
  reasoning : Except PyErr ReasoningResult
  tool : String → Except PyErr String
  processResult : String → Except PyErr String
  updateState : AgentState → Except PyErr Unit

/-- Result dictionary returned by a successful AgentWorkflow.run
(agent_workflow.py, lines 87-91). -/
structure RunResult where
  status : String
  result : String
  state_id : String
  deriving DecidableEq, Repr

/-- Everything observable about one AgentWorkflow.run call: the returned
value or raised exception, the final in-memory state object, and the
sequence of state snapshots successfully persisted through the
update_state activity. -/
structure RunOutcome where
  result : Except PyErr RunResult
  finalState : AgentState
  persisted : List AgentState

/-- Body of the try block of AgentWorkflow.run (agent_workflow.py, lines
59-91): mutate current_step, persist through the update_state activity,
and invoke the reasoning, tool and result-processing activities in order.
An error carries the exception together with the in-memory state and the
persisted snapshots at the moment it escaped. -/
def runBody (st0 : AgentState) (acts : Activities) :
    Except (PyErr × AgentState × List AgentState)
      (RunResult × AgentState × List AgentState) :=
  let s1 := { st0 with current_step := "reasoning" }
  match acts.updateState s1 with
  | .error e => .error (e, s1, [])
  | .ok _ =>
    match acts.reasoning with
    | .error e => .error (e, s1, [s1])
    | .ok r =>
      let s2 := { s1 with current_step := "tool_execution" }
      match acts.updateState s2 with
      | .error e => .error (e, s2, [s1])
      | .ok _ =>
        match acts.tool r.tool_selection with
        | .error e => .error (e, s2, [s1, s2])
        | .ok toolResult =>
          let s2b := { s2 with tool_results := s2.tool_results ++ [toolResult] }
          let s3 := { s2b with current_step := "result_processing" }
          match acts.updateState s3 with
          | .error e => .error (e, s3, [s1, s2])
          | .ok _ =>
            match acts.processResult toolResult with
            | .error e => .error (e, s3, [s1, s2, s3])
            | .ok finalResult =>
              let s4 := { s3 with current_step := "completed" }
              match acts.updateState s4 with
              | .error e => .error (e, s4, [s1, s2, s3])
              | .ok _ =>
                .ok ({ status := "completed", result := finalResult,
                       state_id := s4.id }, s4, [s1, s2, s3, s4])

/-- In-memory state produced by the except handler of AgentWorkflow.run
(lines 93-96): current_step becomes failed and error becomes str(e). -/
def failState (s : AgentState) (e : PyErr) : AgentState :=
  { s with current_step := "failed", error := some (pyStr e) }

/-- AgentWorkflow.run (agent_workflow.py, lines 49-97): the try body
followed by the except handler, which marks the state failed, persists it
via the update_state activity and re-raises; if that persistence attempt
itself raises, the new exception propagates instead. -/
def AgentWorkflow.run (ctx : AgentContext) (acts : Activities) : RunOutcome :=
  match runBody ctx.state acts with
  | .ok (res, fin, tr) => { result := .ok res, finalState := fin, persisted := tr }
  | .error (e, s, tr) =>
    let fs := failState s e
    match acts.updateState fs with
    | .ok _ => { result := .error e, finalState := fs, persisted := tr ++ [fs] }
    | .error e2 => { result := .error e2, finalState := fs, persisted := tr }

/-- Retry policy with two retries, as in testable property P4. -/
def p0 : RetryPolicy := { max_retries := 2, delay_seconds := 1 }

/-- Enabled integration t1 carrying the p0 retry policy. -/
def integ0 : IntegrationConfig :=
  { integration_type := "t1", config := "c", retry_policy := some p0 }

/-- Administratively disabled integration t2. -/
def integDisabled : IntegrationConfig :=
  { integration_type := "t2", config := "c", enabled := false }

/-- Manager state holding t1 and t2 with an empty result cache. -/
def mgr0 : ManagerState :=
  { integrations := [("t1", integ0), ("t2", integDisabled)],
    cache := [], db := [] }

/-- Manager state holding t1 together with a cached result for one of its
operations. -/
def mgrCached : ManagerState :=
  { integrations := [("t1", integ0)],
    cache := [(cacheKey "t1" "op" "ps", "stale")], db := [] }

/-- Operation that fails on its first two invocations and then succeeds. -/
def opFailTwice : Nat → Except PyErr String :=
  fun n => if n < 2 then .error (.opError "boom") else .ok "fresh"

/-- Operation that fails on every invocation. -/
def opAlwaysFail : Nat → Except PyErr String :=
  fun _ => .error (.opError "boom")

/-- Operation that succeeds on every invocation. -/
def opAlwaysOk : Nat → Except PyErr String :=
  fun _ => .ok "fresh"

/-- Freshly created workflow state. -/
def state0 : AgentState := { id := "wf-1" }

/-- Workflow context around state0. -/
def ctx0 : AgentContext := { state := state0 }

/-- Activity oracles for a fully successful run. -/
def actsOk : Activities :=
  { reasoning := .ok { tool_selection := "tool-a" }
    tool := fun _ => .ok "tool-out"
    processResult := fun _ => .ok "final-out"
    updateState := fun _ => .ok () }

/-- Activity oracles where the tool activity has exhausted its retry
budget and fails. -/
def actsToolFails : Activities :=
  { reasoning := .ok { tool_selection := "tool-a" }
    tool := fun _ => .error (.opError "tool exploded")
    processResult := fun _ => .ok "final-out"
    updateState := fun _ => .ok () }

/-- Empty state store. -/
def store0 : StoreState := { db := [], cache := [], events := [] }

/-- Infrastructure outcome where the durable write succeeds and the cache
write fails. -/
def outcomeCacheFails : InfraOutcome :=
  { dbWrite := .ok (), cacheWrite := .error (.opError "redis down"),
    emitResult := .ok () }

/-- Infrastructure outcome where the durable write itself fails. -/
def outcomeDbFails : InfraOutcome :=
  { dbWrite := .error (.opError "cassandra down"), cacheWrite := .ok (),
    emitResult := .ok () }

/-- Infrastructure outcome where every side effect succeeds. -/
def outcomeAllOk : InfraOutcome :=
  { dbWrite := .ok (), cacheWrite := .ok (), emitResult := .ok () }

theorem execOpGo_count_le (op : Nat → Except PyErr String) (d md b : ℚ) :
    ∀ n a, (execOpGo op d md b a n).2.1 ≤ n + 1 := by
  intro n
  induction n with
  | zero => intro a; cases h : op a <;> simp [execOpGo, h]
  | succ m ih =>
    intro a
    cases h : op a with
    | ok v => simp [execOpGo, h]
    | error e =>
      have := ih (a + 1)
      simp only [execOpGo, h]
      omega

theorem execOpGo_ok (op : Nat → Except PyErr String) (d md b : ℚ) :
    ∀ j n a v, (∀ i, i < j → ∃ e, op (a + i) = .error e) →
      op (a + j) = .ok v → j ≤ n →
      (execOpGo op d md b a n).1 = .ok v ∧
      (execOpGo op d md b a n).2.1 = j + 1 := by
  intro j
  induction j with
  | zero =>
    intro n a v _ hok _
    rw [Nat.add_zero] at hok
    cases n <;> simp [execOpGo, hok]
  | succ k ih =>
    intro n a v hfail hok hle
    obtain ⟨e, he⟩ := hfail 0 (Nat.succ_pos k)
    rw [Nat.add_zero] at he
    cases n with
    | zero => omega
    | succ m =>
      have h1 : ∀ i, i < k → ∃ e2, op (a + 1 + i) = .error e2 := by
        intro i hi
        have h2 := hfail (i + 1) (by omega)
        rwa [show a + (i + 1) = a + 1 + i from by omega] at h2
      have h2 : op (a + 1 + k) = .ok v := by
        rwa [show a + (k + 1) = a + 1 + k from by omega] at hok
      obtain ⟨ha, hb⟩ := ih m (a + 1) v h1 h2 (by omega)
      simp [execOpGo, he, ha, hb]

theorem execOpGo_err (op : Nat → Except PyErr String) (d md b : ℚ) :
    ∀ n a e, (∀ i, i < n → ∃ e2, op (a + i) = .error e2) →
      op (a + n) = .error e →
      (execOpGo op d md b a n).1 = .error e ∧
      (execOpGo op d md b a n).2.1 = n + 1 := by
  intro n
  induction n with
  | zero =>
    intro a e _ herr
    rw [Nat.add_zero] at herr
    simp [execOpGo, herr]
  | succ m ih =>
    intro a e hfail herr
    obtain ⟨e0, he0⟩ := hfail 0 (Nat.succ_pos m)
    rw [Nat.add_zero] at he0
    have h1 : ∀ i, i < m → ∃ e2, op (a + 1 + i) = .error e2 := by
      intro i hi
      have h2 := hfail (i + 1) (by omega)
      rwa [show a + (i + 1) = a + 1 + i from by omega] at h2
    have h2 : op (a + 1 + m) = .error e := by
      rwa [show a + (m + 1) = a + 1 + m from by omega] at herr
    obtain ⟨ha, hb⟩ := ih (a + 1) e h1 h2
    simp [execOpGo, he0, ha, hb]

theorem execOpGo_delay (op : Nat → Except PyErr String) (d md b : ℚ) :
    ∀ j n a, (∀ i, i ≤ j → ∃ e, op (a + i) = .error e) → j < n →
      (execOpGo op d md b a n).2.2[j]? = some (min (d * b ^ (a + j)) md) := by
  intro j
  induction j with
  | zero =>
    intro n a hfail hlt
    obtain ⟨e, he⟩ := hfail 0 (Nat.le_refl 0)
    rw [Nat.add_zero] at he
    cases n with
    | zero => omega
    | succ m => simp [execOpGo, he]
  | succ k ih =>
    intro n a hfail hlt
    obtain ⟨e, he⟩ := hfail 0 (Nat.zero_le _)
    rw [Nat.add_zero] at he
    cases n with
    | zero => omega
    | succ m =>
      have h1 : ∀ i, i ≤ k → ∃ e2, op (a + 1 + i) = .error e2 := by
        intro i hi
        have h2 := hfail (i + 1) (by omega)
        rwa [show a + (i + 1) = a + 1 + i from by omega] at h2
      have h3 := ih m (a + 1) h1 (by omega)
      simp only [execOpGo, he]
      simpa [show a + 1 + k = a + (k + 1) from by omega] using h3

theorem execute_operation_policy (integ : IntegrationConfig)
    (p : RetryPolicy) (op : Nat → Except PyErr String)
    (hrp : integ.retry_policy = some p) :
    IntegrationManager.execute_operation integ op =
      execOpGo op p.delay_seconds (p.max_delay_seconds.getD 5)
        (p.backoff_factor.getD 2) 0 p.max_retries := by
  simp [IntegrationManager.execute_operation, hrp]

theorem execute_integration_miss (st : ManagerState) (t oper params : String)
    (op : Nat → Except PyErr String) (integ : IntegrationConfig)
    (hlook : st.integrations.lookup t = some integ)
    (hen : integ.enabled = true)
    (hmiss : st.cache.lookup (cacheKey t oper params) = none) :
    (IntegrationManager.execute_integration st t oper params op false).1 =
      (IntegrationManager.execute_operation integ op).1 := by
  rcases hE : IntegrationManager.execute_operation integ op with ⟨r, c, ds⟩
  cases r <;>
    simp [IntegrationManager.execute_integration, hlook, hen, hmiss, hE]

/-- C1: for an integration whose retry policy supplies max_retries and
delay_seconds, execute_integration on a cache miss invokes the underlying
operation at most 1 + max_retries times; if invocation k succeeds after
k - 1 failures (1 ≤ k ≤ 1 + max_retries) its result is returned with
exactly k invocations made, and if all 1 + max_retries invocations fail
the error of the last invocation is raised. -/
theorem C1_retry_bound (st : ManagerState) (t oper params : String)
    (op : Nat → Except PyErr String) (integ : IntegrationConfig)
    (p : RetryPolicy)
    (hlook : st.integrations.lookup t = some integ)
    (hen : integ.enabled = true)
    (hrp : integ.retry_policy = some p)
    (hmiss : st.cache.lookup (cacheKey t oper params) = none) :
    (IntegrationManager.execute_operation integ op).2.1 ≤ 1 + p.max_retries ∧
    (∀ k v, 1 ≤ k → k ≤ 1 + p.max_retries →
      (∀ i, i < k - 1 → ∃ e, op i = .error e) → op (k - 1) = .ok v →
      (IntegrationManager.execute_integration st t oper params op false).1
        = .ok v ∧
      (IntegrationManager.execute_operation integ op).2.1 = k) ∧
    (∀ e, (∀ i, i < p.max_retries → ∃ e2, op i = .error e2) →
      op p.max_retries = .error e →
      (IntegrationManager.execute_integration st t oper params op false).1
        = .error e ∧
      (IntegrationManager.execute_operation integ op).2.1
        = 1 + p.max_retries) := by
  have hEq := execute_operation_policy integ p op hrp
  have hRed := execute_integration_miss st t oper params op integ hlook hen hmiss
  refine ⟨?_, ?_, ?_⟩
  · rw [hEq]
    have := execOpGo_count_le op p.delay_seconds (p.max_delay_seconds.getD 5)
      (p.backoff_factor.getD 2) p.max_retries 0
    omega
  · intro k v hk1 hk2 hfail hok
    obtain ⟨ha, hb⟩ := execOpGo_ok op p.delay_seconds
      (p.max_delay_seconds.getD 5) (p.backoff_factor.getD 2) (k - 1)
      p.max_retries 0 v (by intro i hi; simpa using hfail i hi)
      (by simpa using hok) (by omega)
    rw [hEq] at hRed ⊢
    exact ⟨hRed.trans ha, by omega⟩
  · intro e hfail herr
    obtain ⟨ha, hb⟩ := execOpGo_err op p.delay_seconds
      (p.max_delay_seconds.getD 5) (p.backoff_factor.getD 2) p.max_retries 0
      e (by intro i hi; simpa using hfail i hi) (by simpa using herr)
    rw [hEq] at hRed ⊢
    exact ⟨hRed.trans ha, by omega⟩

theorem C1_retry_bound_witness :
    (IntegrationManager.execute_integration mgr0 "t1" "op" "ps" opFailTwice
      false).1 = .ok "fresh" ∧
    (IntegrationManager.execute_operation integ0 opFailTwice).2.1 = 3 := by
  have h := C1_retry_bound mgr0 "t1" "op" "ps" opFailTwice integ0 p0
    rfl rfl rfl rfl
  exact h.2.1 3 "fresh" (by omega) (by norm_num [p0])
    (fun i hi => ⟨.opError "boom", by simp [opFailTwice]; omega⟩) rfl

/-- C6: execute_integration on an unregistered integration type raises the
not-found ValueError, and on a disabled integration raises the disabled
ValueError; in both cases the manager state is unchanged and the result is
independent of the underlying operation and of the timeout, so the
operation is never invoked. -/
theorem C6_notfound_disabled (st : ManagerState) (t oper params : String)
    (op : Nat → Except PyErr String) (timedOut : Bool) :
    (st.integrations.lookup t = none →
      IntegrationManager.execute_integration st t oper params op timedOut
        = (.error (.valueError ("Integration " ++ t ++ " not found")), st) ∧
      ∀ op2 timedOut2,
        IntegrationManager.execute_integration st t oper params op timedOut
          = IntegrationManager.execute_integration st t oper params op2
              timedOut2) ∧
    (∀ integ, st.integrations.lookup t = some integ → integ.enabled = false →
      IntegrationManager.execute_integration st t oper params op timedOut
        = (.error (.valueError ("Integration " ++ t ++ " is disabled")), st) ∧
      ∀ op2 timedOut2,
        IntegrationManager.execute_integration st t oper params op timedOut
          = IntegrationManager.execute_integration st t oper params op2
              timedOut2) := by
  constructor
  · intro hnone
    constructor
    · simp [IntegrationManager.execute_integration, hnone]
    · intro op2 td2
      simp [IntegrationManager.execute_integration, hnone]
  · intro integ hsome hdis
    constructor
    · simp [IntegrationManager.execute_integration, hsome, hdis]
    · intro op2 td2
      simp [IntegrationManager.execute_integration, hsome, hdis]

theorem C6_notfound_disabled_witness :
    IntegrationManager.execute_integration mgr0 "nope" "op" "ps" opAlwaysOk
      false = (.error (.valueError "Integration nope not found"), mgr0) ∧
    IntegrationManager.execute_integration mgr0 "t2" "op" "ps" opAlwaysOk
      false = (.error (.valueError "Integration t2 is disabled"), mgr0) := by
  constructor
  · exact ((C6_notfound_disabled mgr0 "nope" "op" "ps" opAlwaysOk false).1
      rfl).1
  · exact ((C6_notfound_disabled mgr0 "t2" "op" "ps" opAlwaysOk false).2
      integDisabled rfl rfl).1

/-- C7: when invocation a fails and a retry follows (1 ≤ a ≤ max_retries),
the delay waited before the next invocation is exactly
min(delay_seconds * backoff_factor ^ (a - 1), max_delay_seconds), where
backoff_factor defaults to 2 and max_delay_seconds defaults to 5 when the
retry policy leaves them unset; the code adds no jitter term, which is the
degenerate bounded jitter of zero. -/
theorem C7_backoff_delay (integ : IntegrationConfig) (p : RetryPolicy)
    (op : Nat → Except PyErr String) (a : Nat)
    (hrp : integ.retry_policy = some p)
    (h1 : 1 ≤ a) (h2 : a ≤ p.max_retries)
    (hfail : ∀ i, i < a → ∃ e, op i = .error e) :
    (IntegrationManager.execute_operation integ op).2.2[a - 1]? =
      some (min (p.delay_seconds * (p.backoff_factor.getD 2) ^ (a - 1))
        (p.max_delay_seconds.getD 5)) := by
  rw [execute_operation_policy integ p op hrp]
  have h3 := execOpGo_delay op p.delay_seconds (p.max_delay_seconds.getD 5)
    (p.backoff_factor.getD 2) (a - 1) p.max_retries 0
    (by intro i hi; simpa using hfail i (by omega)) (by omega)
  simpa using h3

theorem C7_backoff_delay_witness :
    (IntegrationManager.execute_operation integ0 opAlwaysFail).2.2[1]? =
      some 2 := by
  have h := C7_backoff_delay integ0 p0 opAlwaysFail 2 rfl (by omega)
    (by norm_num [p0]) (fun i _ => ⟨.opError "boom", rfl⟩)
  simpa [p0] using h

/-- C9: whenever execute_integration raises (integration missing or
disabled, cache-hit path excluded, timeout exceeded, or retry budget
exhausted), the manager state — in particular the result cache — is left
completely unchanged: the cache is written only after a successful
execution. -/
theorem C9_error_leaves_cache (st : ManagerState) (t oper params : String)
    (op : Nat → Except PyErr String) (timedOut : Bool) (e : PyErr)
    (st2 : ManagerState)
    (h : IntegrationManager.execute_integration st t oper params op timedOut
      = (.error e, st2)) :
    st2 = st := by
  unfold IntegrationManager.execute_integration at h
  repeat' split at h
  all_goals simp_all

theorem C9_error_leaves_cache_witness :
    (IntegrationManager.execute_integration mgr0 "t1" "op" "ps" opAlwaysFail
      false).2 = mgr0 :=
  C9_error_leaves_cache mgr0 "t1" "op" "ps" opAlwaysFail false
    (.opError "boom") _ rfl

/-- C10: update_integration on a registered integration with every
optional field left as None returns successfully without writing to
durable storage, without touching the in-memory index and without
invalidating any cached operation results: the entire manager state is
returned unchanged. -/
theorem C10_noop_update (st : ManagerState) (t : String)
    (integ : IntegrationConfig)
    (hlook : st.integrations.lookup t = some integ) :
    IntegrationManager.update_integration st t none none none none none
      = (.ok (), st) := by
  simp [IntegrationManager.update_integration, hlook]

theorem C10_noop_update_witness :
    IntegrationManager.update_integration mgrCached "t1" none none none none
      none = (.ok (), mgrCached) :=
  C10_noop_update mgrCached "t1" integ0 rfl

theorem lookup_filter_none {β : Type} (l : List (String × β)) (key : String)
    (f : String × β → Bool) (hf : ∀ p, p.1 = key → f p = false) :
    (l.filter f).lookup key = none := by
  rw [List.lookup_eq_none_iff]
  intro p hp
  rcases List.mem_filter.mp hp with ⟨_, hfp⟩
  have hne : p.1 ≠ key := by
    intro hk
    rw [hf p hk] at hfp
    exact Bool.false_ne_true hfp
  simp only [bne_iff_ne]
  exact fun h => hne h.symm

theorem globStar_cacheKey (t oper params : String) :
    globStar ("integration:" ++ t ++ ":") (cacheKey t oper params) = true := by
  rw [globStar, List.isPrefixOf_iff_prefix]
  refine ⟨(oper ++ ":" ++ params).data, ?_⟩
  simp [cacheKey, List.append_assoc]

theorem clear_cache_lookup_none (c : List (String × String)) (t key : String)
    (h : globStar ("integration:" ++ t ++ ":") key = true) :
    (IntegrationManager.clear_integration_cache c t).lookup key = none := by
  apply lookup_filter_none
  intro p hp
  simp [hp, h]

theorem update_integration_ok_cache (st : ManagerState) (t : String)
    (c : Option String) (en : Option Bool) (rp : Option RetryPolicy)
    (ts cts : Option Int) (st2 : ManagerState)
    (hsome : c.isSome ∨ en.isSome ∨ rp.isSome ∨ ts.isSome ∨ cts.isSome)
    (h : IntegrationManager.update_integration st t c en rp ts cts
      = (.ok (), st2)) :
    st2.cache = IntegrationManager.clear_integration_cache st.cache t := by
  unfold IntegrationManager.update_integration at h
  repeat' split at h
  all_goals (try simp_all)
  all_goals (try (split at h <;> simp_all))
  all_goals rw [← h]

theorem delete_integration_ok_cache (st : ManagerState) (t : String)
    (st2 : ManagerState)
    (h : IntegrationManager.delete_integration st t = (.ok (), st2)) :
    st2.cache = IntegrationManager.clear_integration_cache st.cache t := by
  unfold IntegrationManager.delete_integration at h
  repeat' split at h
  all_goals (try simp_all)
  all_goals rw [← h]

/-- C8 as stated quantifies over every completed update_integration call,
but the call with all optional fields left as None completes successfully
while skipping cache invalidation entirely: on a state with a cached
result for t1, that call returns ok and a subsequent execute_integration
still returns the stale cached value. -/
theorem C8_counterexample :
    (IntegrationManager.update_integration mgrCached "t1" none none none
      none none).1 = .ok () ∧
    (IntegrationManager.execute_integration
      (IntegrationManager.update_integration mgrCached "t1" none none none
        none none).2 "t1" "op" "ps" opAlwaysOk false).1 = .ok "stale" := by
  constructor <;> rfl

/-- C8 (amended): after an update_integration call that provides at least
one optional field completes successfully, or after delete_integration
completes successfully, every cache entry keyed under that
integration_type has been invalidated; in particular the result-cache key
of every (operation, params) pair no longer resolves, so a subsequent
execute_integration cannot be served the stale cached value. -/
theorem C8_cache_invalidation (st : ManagerState) (t : String) :
    (∀ c en rp ts cts st2,
      (c.isSome ∨ en.isSome ∨ rp.isSome ∨ ts.isSome ∨ cts.isSome) →
      IntegrationManager.update_integration st t c en rp ts cts
        = (.ok (), st2) →
      (∀ key, globStar ("integration:" ++ t ++ ":") key = true →
        st2.cache.lookup key = none) ∧
      ∀ oper params, st2.cache.lookup (cacheKey t oper params) = none) ∧
    (∀ st2, IntegrationManager.delete_integration st t = (.ok (), st2) →
      (∀ key, globStar ("integration:" ++ t ++ ":") key = true →
        st2.cache.lookup key = none) ∧
      ∀ oper params, st2.cache.lookup (cacheKey t oper params) = none) := by
  constructor
  · intro c en rp ts cts st2 hsome h
    have hc := update_integration_ok_cache st t c en rp ts cts st2 hsome h
    constructor
    · intro key hkey
      rw [hc]
      exact clear_cache_lookup_none st.cache t key hkey
    · intro oper params
      rw [hc]
      exact clear_cache_lookup_none st.cache t _ (globStar_cacheKey t oper params)
  · intro st2 h
    have hc := delete_integration_ok_cache st t st2 h
    constructor
    · intro key hkey
      rw [hc]
      exact clear_cache_lookup_none st.cache t key hkey
    · intro oper params
      rw [hc]
      exact clear_cache_lookup_none st.cache t _ (globStar_cacheKey t oper params)

theorem C8_cache_invalidation_witness :
    ((IntegrationManager.update_integration mgrCached "t1" (some "c2") none
      none none none).2).cache.lookup (cacheKey "t1" "op" "ps") = none ∧
    ((IntegrationManager.delete_integration mgrCached "t1").2).cache.lookup
      (cacheKey "t1" "op" "ps") = none := by
  constructor
  · exact (((C8_cache_invalidation mgrCached "t1").1 (some "c2") none none
      none none _ (Or.inl rfl) rfl).2 "op" "ps")
  · exact (((C8_cache_invalidation mgrCached "t1").2 _ rfl).2 "op" "ps")

theorem runBody_ok_trace (st : AgentState) (acts : Activities)
    (res : RunResult) (fin : AgentState) (tr : List AgentState)
    (h : runBody st acts = .ok (res, fin, tr)) :
    tr.map (fun s => s.current_step)
      = ["reasoning", "tool_execution", "result_processing", "completed"] := by
  unfold runBody at h
  repeat' (first | split at h | simp_all)
  all_goals
    obtain ⟨-, -, h3⟩ := h
  all_goals
    subst h3
  all_goals rfl

/-- C2: when an exception escapes the activity invocations inside
AgentWorkflow.run and the failure-path persistence succeeds, run sets
current_step to failed, sets error to the string description of the
exception, persists that failed state as the final snapshot, and
re-raises the same exception instead of returning a result. -/
theorem C2_failure_path (ctx : AgentContext) (acts : Activities)
    (e : PyErr) (s : AgentState) (tr : List AgentState)
    (hbody : runBody ctx.state acts = .error (e, s, tr))
    (hpersist : acts.updateState (failState s e) = .ok ()) :
    (AgentWorkflow.run ctx acts).result = .error e ∧
    (AgentWorkflow.run ctx acts).finalState.current_step = "failed" ∧
    (AgentWorkflow.run ctx acts).finalState.error = some (pyStr e) ∧
    (AgentWorkflow.run ctx acts).persisted
      = tr ++ [(AgentWorkflow.run ctx acts).finalState] := by
  have hrun : AgentWorkflow.run ctx acts
      = { result := .error e, finalState := failState s e,
          persisted := tr ++ [failState s e] } := by
    simp [AgentWorkflow.run, hbody, hpersist]
  rw [hrun]
  simp [failState]

theorem C2_failure_path_witness :
    (AgentWorkflow.run ctx0 actsToolFails).result
      = .error (.opError "tool exploded") ∧
    (AgentWorkflow.run ctx0 actsToolFails).finalState.current_step
      = "failed" ∧
    (AgentWorkflow.run ctx0 actsToolFails).finalState.error
      = some "tool exploded" ∧
    (AgentWorkflow.run ctx0 actsToolFails).persisted
      = [{ state0 with current_step := "reasoning" },
         { state0 with current_step := "tool_execution" }]
        ++ [(AgentWorkflow.run ctx0 actsToolFails).finalState] := by
  have h := C2_failure_path ctx0 actsToolFails (.opError "tool exploded")
    { state0 with current_step := "tool_execution" }
    [{ state0 with current_step := "reasoning" },
     { state0 with current_step := "tool_execution" }] rfl rfl
  exact h

/-- C3 as stated fails on the code: a fully successful run persists the
step sequence [reasoning, tool_execution, result_processing, completed];
the initialized value is only ever the in-memory initial step and is never
persisted, so the claimed five-element sequence does not occur. -/
theorem C3_counterexample :
    (AgentWorkflow.run ctx0 actsOk).result
      = .ok { status := "completed", result := "final-out",
              state_id := "wf-1" } ∧
    (AgentWorkflow.run ctx0 actsOk).persisted.map (fun s => s.current_step)
      ≠ ["initialized", "reasoning", "tool_execution", "result_processing",
         "completed"] := by
  refine ⟨rfl, ?_⟩
  decide

/-- C3 (amended): for every run of AgentWorkflow.run that completes
successfully, the sequence of current_step values persisted through the
update_state activity is exactly [reasoning, tool_execution,
result_processing, completed] with no repeats; the initialized step is the
in-memory initial value and is never itself persisted by run. -/
theorem C3_persisted_steps (ctx : AgentContext) (acts : Activities)
    (res : RunResult)
    (h : (AgentWorkflow.run ctx acts).result = .ok res) :
    (AgentWorkflow.run ctx acts).persisted.map (fun s => s.current_step)
      = ["reasoning", "tool_execution", "result_processing", "completed"] := by
  cases hb : runBody ctx.state acts with
  | ok x =>
    rcases x with ⟨r, fin, tr⟩
    have htr := runBody_ok_trace ctx.state acts r fin tr hb
    simp [AgentWorkflow.run, hb, htr]
  | error x =>
    rcases x with ⟨e, s, tr⟩
    rw [AgentWorkflow.run, hb] at h
    cases hp : acts.updateState (failState s e) <;> simp [hp] at h

theorem C3_persisted_steps_witness :
    (AgentWorkflow.run ctx0 actsOk).persisted.map (fun s => s.current_step)
      = ["reasoning", "tool_execution", "result_processing", "completed"] :=
  C3_persisted_steps ctx0 actsOk
    { status := "completed", result := "final-out", state_id := "wf-1" } rfl

/-- C4: the claim describes the intended contract, but store_event always
raises before storing anything: the id generation str(UUID()) calls the
uuid.UUID constructor with no argument, which raises TypeError, so no
event id is generated, no record is appended, and the call never
returns. -/
theorem C4_store_event_raises (store : List EventRecord)
    (workflow_id event_type event_data : String) (metadata : Option String)
    (now : Nat) :
    EventStore.store_event store workflow_id event_type event_data metadata
      now
      = (.error (.typeError
          "one of the hex, bytes, bytes_le, fields, or int arguments must be given"),
         store) := rfl

/-- C5 as stated fails on the code: with a successful durable write
followed by a failing cache write, StateManager.update_state re-raises the
cache error to the caller instead of swallowing it, even though the
durable write has been applied. -/
theorem C5_counterexample :
    (StateManager.update_state store0 state0 true 7 outcomeCacheFails).1
      = .error (.opError "redis down") ∧
    (StateManager.update_state store0 state0 true 7 outcomeCacheFails).2.db
      = [("wf-1", { state0 with updated_at := 7 })] := by
  constructor <;> rfl

/-- C5 (amended): any durable-storage failure in update_state is raised to
the caller with the store unchanged; a cache-write failure occurring after
a successful durable write is ALSO raised to the caller — the except block
re-raises every exception — with the durable write left applied. -/
theorem C5_update_failure_propagation (store : StoreState)
    (state : AgentState) (emit_event : Bool) (now : Nat) (o : InfraOutcome) :
    (∀ e, o.dbWrite = .error e →
      StateManager.update_state store state emit_event now o
        = (.error e, store)) ∧
    (∀ e, o.dbWrite = .ok () → o.cacheWrite = .error e →
      StateManager.update_state store state emit_event now o
        = (.error e,
           { store with
             db := rowSet store.db state.id ({ state with updated_at := now }) })) := by
  constructor
  · intro e he
    simp [StateManager.update_state, he]
  · intro e hdb hc
    simp [StateManager.update_state, hdb, hc]

theorem C5_update_failure_propagation_witness :
    StateManager.update_state store0 state0 true 7 outcomeDbFails
      = (.error (.opError "cassandra down"), store0) ∧
    StateManager.update_state store0 state0 true 7 outcomeCacheFails
      = (.error (.opError "redis down"),
         { store0 with
           db := rowSet store0.db state0.id ({ state0 with updated_at := 7 }) }) := by
  constructor
  · exact (C5_update_failure_propagation store0 state0 true 7
      outcomeDbFails).1 (.opError "cassandra down") rfl
  · exact (C5_update_failure_propagation store0 state0 true 7
      outcomeCacheFails).2 (.opError "redis down") rfl rfl

end Agent360
